import Mathlib

/-!
Shallow embedding of the Outscraper review-scraper pipeline (`src/scraper.py`)
and proofs about its persistence and polling behaviour.

Modelling conventions:
* Python values are modelled by `PyVal` (JSON-like data plus a `datetime`
  constructor for the parsed review timestamp).
* Python dicts are association lists `List (String × PyVal)`; `dict.get`
  returns `PyVal.none` for a missing key, mirroring Python's `None` default.
* The database capability is modelled as an ideal store: the two tables are
  lists of rows, `cursor.execute` effects are interpreted semantically
  (existence check / insert / update), and statements themselves never fail.
  Exceptions in the model arise from Python-level faults that the source can
  actually raise: `KeyError` on a bracket lookup of a stripped key,
  `TypeError` when `strptime` receives a non-string, and `AttributeError` /
  `TypeError` when a payload entry is not the expected shape.
* The Outscraper API client is a pair of oracles: a submission oracle
  (per attempt) and a polling oracle (per round and request id).
-/

namespace Scraper

/-- Result of `datetime.strptime(_, '%m/%d/%Y %H:%M:%S')`: a parsed timestamp. -/
structure DT where
  month : Nat
  day : Nat
  year : Nat
  hour : Nat
  minute : Nat
  second : Nat
deriving Repr, DecidableEq

/-- A Python value as it appears in provider payloads and database rows. -/
inductive PyVal where
  | none
  | bool (b : Bool)
  | int (n : Int)
  | str (s : String)
  | list (xs : List PyVal)
  | dict (xs : List (String × PyVal))
  | dt (t : DT)
deriving Repr

/-- Python truthiness: `None`, `False`, `0`, `""`, `[]`, `{}` are falsy. -/
def PyVal.truthy : PyVal → Bool
  | PyVal.none => false
  | PyVal.bool b => b
  | PyVal.int n => n != 0
  | PyVal.str s => s != ""
  | PyVal.list xs => !xs.isEmpty
  | PyVal.dict xs => !xs.isEmpty
  | PyVal.dt _ => true

/-- Test for the Python value `None`. -/
def PyVal.isNone : PyVal → Bool
  | PyVal.none => true
  | _ => false

mutual

/-- Model of `json.dumps`: serialize a value to a JSON string. -/
def jsonStr : PyVal → String
  | PyVal.none => "null"
  | PyVal.bool b => cond b "true" "false"
  | PyVal.int n => toString n
  | PyVal.str s => "\"" ++ s ++ "\""
  | PyVal.dt _ => "<datetime>"
  | PyVal.list xs => "[" ++ jsonItems xs ++ "]"
  | PyVal.dict kvs => "\x7b" ++ jsonEntries kvs ++ "\x7d"

/-- Comma-separated serialization of list items. -/
def jsonItems : List PyVal → String
  | [] => ""
  | [x] => jsonStr x
  | x :: y :: xs => jsonStr x ++ ", " ++ jsonItems (y :: xs)

/-- Comma-separated serialization of dict entries. -/
def jsonEntries : List (String × PyVal) → String
  | [] => ""
  | [(k, v)] => "\"" ++ k ++ "\": " ++ jsonStr v
  | (k, v) :: e :: kvs => "\"" ++ k ++ "\": " ++ jsonStr v ++ ", " ++ jsonEntries (e :: kvs)

end

/-- Value equality as used by the SQL `WHERE key = %s` point lookups. -/
def pyEq : PyVal → PyVal → Bool
  | PyVal.none, PyVal.none => true
  | PyVal.bool a, PyVal.bool b => a == b
  | PyVal.int a, PyVal.int b => a == b
  | PyVal.str a, PyVal.str b => a == b
  | PyVal.dt a, PyVal.dt b => a == b
  | PyVal.list [], PyVal.list [] => true
  | PyVal.list (a :: as), PyVal.list (b :: bs) =>
      pyEq a b && pyEq (PyVal.list as) (PyVal.list bs)
  | PyVal.dict [], PyVal.dict [] => true
  | PyVal.dict ((k1, v1) :: as), PyVal.dict ((k2, v2) :: bs) =>
      k1 == k2 && pyEq v1 v2 && pyEq (PyVal.dict as) (PyVal.dict bs)
  | _, _ => false

/-- A Python dict (and a database row): an association list keyed by strings. -/
abbrev Dict := List (String × PyVal)

/-- First binding of a key, if present (Python dicts have unique keys). -/
def dictGet? (d : Dict) (k : String) : Option PyVal :=
  (d.find? (fun p => p.1 == k)).map Prod.snd

/-- Model of `d.get(k, default)`. -/
def pyGetD (d : Dict) (k : String) (dflt : PyVal) : PyVal :=
  match dictGet? d k with
  | Option.some v => v
  | Option.none => dflt

/-- Model of `d.get(k)`: `None` when the key is missing. -/
def pyGet (d : Dict) (k : String) : PyVal :=
  pyGetD d k PyVal.none

/-- Model of the dict comprehension dropping `None` values
(`{k: v for k, v in d.items() if v is not None}`). -/
def stripNone (d : Dict) : Dict :=
  d.filter (fun p => !p.2.isNone)

/-- Model of `json.dumps(x) if x else None` applied to a payload field. -/
def jsonIfTruthy (v : PyVal) : PyVal :=
  if v.truthy then PyVal.str (jsonStr v) else PyVal.none

/-- Split a character list on a separator character. -/
def splitOnChar (c : Char) (cs : List Char) : List (List Char) :=
  match cs with
  | [] => [[]]
  | x :: rest =>
    let r := splitOnChar c rest
    if x == c then [] :: r
    else
      match r with
      | [] => [[x]]
      | g :: gs => (x :: g) :: gs

/-- Numeric value of a field of 1 to `maxLen` digits, as `strptime` scans it. -/
def digitField (maxLen : Nat) (cs : List Char) : Option Nat :=
  if cs.length = 0 || maxLen < cs.length || !cs.all Char.isDigit then Option.none
  else Option.some (cs.foldl (fun n c => n * 10 + (c.toNat - 48)) 0)

/-- Days in a month, with Gregorian leap years, as `datetime` validates. -/
def daysInMonth (y m : Nat) : Nat :=
  if m = 2 then (if y % 4 = 0 && (y % 100 != 0 || y % 400 = 0) then 29 else 28)
  else if m = 4 || m = 6 || m = 9 || m = 11 then 30 else 31

/-- Model of `datetime.strptime(s, '%m/%d/%Y %H:%M:%S')`:
`Option.none` is the `ValueError` outcome. -/
def parseMDYHMS (s : String) : Option DT :=
  match splitOnChar ' ' s.data with
  | [datePart, timePart] =>
    match splitOnChar '/' datePart, splitOnChar ':' timePart with
    | [ms, ds, ys], [hs, mins, ss] =>
      match digitField 2 ms, digitField 2 ds, digitField 4 ys,
            digitField 2 hs, digitField 2 mins, digitField 2 ss with
      | Option.some mo, Option.some d, Option.some y,
        Option.some h, Option.some mi, Option.some sec =>
        if 1 ≤ mo ∧ mo ≤ 12 ∧ 1 ≤ d ∧ d ≤ daysInMonth y mo ∧ 1 ≤ y ∧ y ≤ 9999 ∧
            h ≤ 23 ∧ mi ≤ 59 ∧ sec ≤ 59 then
          Option.some ⟨mo, d, y, h, mi, sec⟩
        else Option.none
      | _, _, _, _, _, _ => Option.none
    | _, _ => Option.none
  | _ => Option.none

/-- Field extraction of `save_business` (scraper.py lines 109-174): the fixed
allow-list mapping from the raw payload to the `business` dict, before the
`None`-stripping comprehension. -/
def mkBusiness (business_data : Dict) : Dict :=
  [ ("query", pyGet business_data "query"),
    ("name", pyGet business_data "name"),
    ("name_for_emails", pyGet business_data "name_for_emails"),
    ("place_id", pyGet business_data "place_id"),
    ("google_id", pyGet business_data "google_id"),
    ("kgmid", pyGet business_data "kgmid"),
    ("full_address", pyGet business_data "full_address"),
    ("borough", pyGet business_data "borough"),
    ("street", pyGet business_data "street"),
    ("postal_code", pyGet business_data "postal_code"),
    ("area_service", pyGet business_data "area_service"),
    ("country_code", pyGet business_data "country_code"),
    ("country", pyGet business_data "country"),
    ("city", pyGet business_data "city"),
    ("us_state", pyGet business_data "us_state"),
    ("state", pyGet business_data "state"),
    ("plus_code", pyGet business_data "plus_code"),
    ("latitude", pyGet business_data "latitude"),
    ("longitude", pyGet business_data "longitude"),
    ("h3", pyGet business_data "h3"),
    ("time_zone", pyGet business_data "time_zone"),
    ("popular_times", jsonIfTruthy (pyGet business_data "popular_times")),
    ("site", pyGet business_data "site"),
    ("phone", pyGet business_data "phone"),
    ("type", pyGet business_data "type"),
    ("logo", pyGet business_data "logo"),
    ("description", pyGet business_data "description"),
    ("typical_time_spent", pyGet business_data "typical_time_spent"),
    ("located_in", pyGet business_data "located_in"),
    ("located_google_id", pyGet business_data "located_google_id"),
    ("category", pyGet business_data "category"),
    ("subtypes", pyGet business_data "subtypes"),
    ("posts", jsonIfTruthy (pyGet business_data "posts")),
    ("reviews_tags", jsonIfTruthy (pyGet business_data "reviews_tags")),
    ("rating", pyGet business_data "rating"),
    ("reviews_count", pyGet business_data "reviews"),
    ("photos_count", pyGet business_data "photos_count"),
    ("cid", pyGet business_data "cid"),
    ("reviews_link", pyGet business_data "reviews_link"),
    ("reviews_id", pyGet business_data "reviews_id"),
    ("photo", pyGet business_data "photo"),
    ("street_view", pyGet business_data "street_view"),
    ("working_hours_old_format", pyGet business_data "working_hours_old_format"),
    ("working_hours", jsonIfTruthy (pyGet business_data "working_hours")),
    ("other_hours", jsonIfTruthy (pyGet business_data "other_hours")),
    ("business_status", pyGet business_data "business_status"),
    ("about", jsonIfTruthy (pyGet business_data "about")),
    ("range", pyGet business_data "range"),
    ("reviews_per_score", pyGet business_data "reviews_per_score"),
    ("reviews_per_score_1", pyGet business_data "reviews_per_score_1"),
    ("reviews_per_score_2", pyGet business_data "reviews_per_score_2"),
    ("reviews_per_score_3", pyGet business_data "reviews_per_score_3"),
    ("reviews_per_score_4", pyGet business_data "reviews_per_score_4"),
    ("reviews_per_score_5", pyGet business_data "reviews_per_score_5"),
    ("reservation_links", jsonIfTruthy (pyGet business_data "reservation_links")),
    ("booking_appointment_link", pyGet business_data "booking_appointment_link"),
    ("menu_link", pyGet business_data "menu_link"),
    ("order_links", jsonIfTruthy (pyGet business_data "order_links")),
    ("owner_id", pyGet business_data "owner_id"),
    ("verified", pyGet business_data "verified"),
    ("owner_title", pyGet business_data "owner_title"),
    ("owner_link", pyGet business_data "owner_link"),
    ("location_link", pyGet business_data "location_link"),
    ("location_reviews_link", pyGet business_data "location_reviews_link") ]

/-- Field extraction of `save_review` (scraper.py lines 235-261): the fixed
allow-list mapping from the raw review payload to `review_record`, before the
`None`-stripping comprehension.  `rdu` is the already-computed value of the
`review_datetime_utc` local variable. -/
def mkReviewRecord (review : Dict) (business_place_id : PyVal) (rdu : PyVal) : Dict :=
  [ ("business_place_id", business_place_id),
    ("google_id", pyGet review "google_id"),
    ("review_id", pyGet review "review_id"),
    ("review_pagination_id", pyGet review "review_pagination_id"),
    ("author_link", pyGet review "author_link"),
    ("author_title", pyGet review "author_title"),
    ("author_id", pyGet review "author_id"),
    ("author_image", pyGet review "author_image"),
    ("author_reviews_count", pyGet review "author_reviews_count"),
    ("author_ratings_count", pyGet review "author_ratings_count"),
    ("review_text", pyGet review "review_text"),
    ("review_img_urls", jsonIfTruthy (pyGet review "review_img_urls")),
    ("review_img_url", pyGet review "review_img_url"),
    ("review_questions", jsonIfTruthy (pyGet review "review_questions")),
    ("review_photo_ids", jsonIfTruthy (pyGet review "review_photo_ids")),
    ("owner_answer", pyGet review "owner_answer"),
    ("owner_answer_timestamp", pyGet review "owner_answer_timestamp"),
    ("owner_answer_timestamp_datetime_utc", pyGet review "owner_answer_timestamp_datetime_utc"),
    ("review_link", pyGet review "review_link"),
    ("review_rating", pyGet review "review_rating"),
    ("review_timestamp", pyGet review "review_timestamp"),
    ("review_datetime_utc", rdu),
    ("review_likes", pyGet review "review_likes"),
    ("reviews_id", pyGet review "reviews_id"),
    ("replies", jsonIfTruthy (pyGet review "replies")) ]

/-- Timestamp normalization of `save_review` (scraper.py lines 222-232):
skip falsy values, parse strings with `strptime` treating `ValueError` as
"leave it `None`", and raise `TypeError` (NOT caught by the inner
`except ValueError`) when the truthy value is not a string. -/
def reviewDatetimeStep (review : Dict) : Except String PyVal :=
  let raw := pyGet review "review_datetime_utc"
  if raw.truthy then
    match raw with
    | PyVal.str s =>
      match parseMDYHMS s with
      | Option.some t => Except.ok (PyVal.dt t)
      | Option.none => Except.ok PyVal.none
    | _ => Except.error "TypeError: strptime argument must be str"
  else Except.ok PyVal.none

/-- The two tables of the assumed schema (rows are sparse column maps). -/
structure DB where
  businesses : List Dict
  reviews : List Dict
deriving Repr

/-- The `self.results` tracking dict: batch counters and error lists.
Error entries are `(identifier value, error message)` pairs, modelling the
`{'place_id'/'review_id': ..., 'error': ...}` dicts. -/
structure Results where
  businesses_inserted : Nat
  reviews_inserted : Nat
  businesses_errors : List (PyVal × String)
  reviews_errors : List (PyVal × String)
deriving Repr

/-- The reset value of `self.results` (scraper.py lines 320-325). -/
def initResults : Results := ⟨0, 0, [], []⟩

/-- Value of a column in a row; a missing column reads as SQL NULL / `None`. -/
def rowGet (r : Dict) (k : String) : PyVal :=
  pyGet r k

/-- Set one column of a row (`UPDATE ... SET k = v`): replace the binding of
the column, or add it when the sparse row does not carry it yet. -/
def setField : Dict → String → PyVal → Dict
  | [], k, v => [(k, v)]
  | p :: r, k, v => if p.1 == k then (k, v) :: r else p :: setField r k v

/-- Apply an update's `SET` list to a row, column by column. -/
def applyUpdates (r : Dict) (fs : Dict) : Dict :=
  fs.foldl (fun acc kv => setField acc kv.1 kv.2) r

/-- Existence point lookup `SELECT 1 FROM t WHERE key = %s` followed by
`fetchone()` being non-`None`. -/
def tableHas (t : List Dict) (key : String) (v : PyVal) : Bool :=
  t.any (fun r => pyEq (rowGet r key) v)

/-- Effect of `UPDATE t SET ... WHERE key = %s`. -/
def tableUpdate (t : List Dict) (key : String) (v : PyVal) (fs : Dict) : List Dict :=
  t.map (fun r => if pyEq (rowGet r key) v then applyUpdates r fs else r)

/-- Number of stored rows whose `key` column equals `v`. -/
def countRows (t : List Dict) (key : String) (v : PyVal) : Nat :=
  (t.filter (fun r => pyEq (rowGet r key) v)).length

/-- Model of `save_business` (scraper.py lines 97-208).  Returns the updated
database and results state together with the `(success, payload)` tuple.
The ideal database never fails a statement; the modelled exceptions are the
`KeyError`s raised by `business['place_id']` (line 185) and by the
log-message interpolation `business['name']` (lines 191 and 197), both
caught by the broad handler of lines 201-208. -/
def save_business (db : DB) (res : Results) (business_data : Dict) :
    (DB × Results) × (Bool × PyVal) :=
  let business := stripNone (mkBusiness business_data)
  match dictGet? business "place_id" with
  | Option.none =>
      ((db, { res with businesses_errors :=
          res.businesses_errors ++ [(pyGet business_data "place_id", "KeyError: place_id")] }),
       (false, PyVal.str "KeyError: place_id"))
  | Option.some pid =>
      if tableHas db.businesses "place_id" pid then
        let db' := { db with businesses := tableUpdate db.businesses "place_id" pid business }
        match dictGet? business "name" with
        | Option.none =>
            ((db', { res with businesses_errors :=
                res.businesses_errors ++ [(pyGet business_data "place_id", "KeyError: name")] }),
             (false, PyVal.str "KeyError: name"))
        | Option.some _ => ((db', res), (true, pid))
      else
        let db' := { db with businesses := db.businesses ++ [business] }
        let res' := { res with businesses_inserted := res.businesses_inserted + 1 }
        match dictGet? business "name" with
        | Option.none =>
            ((db', { res' with businesses_errors :=
                res'.businesses_errors ++ [(pyGet business_data "place_id", "KeyError: name")] }),
             (false, PyVal.str "KeyError: name"))
        | Option.some _ => ((db', res'), (true, pid))

/-- Model of `save_review` (scraper.py lines 210-295).  The modelled
exceptions caught by the broad handler of lines 288-295 are the `TypeError`
from `strptime` on a truthy non-string (line 226) and the `KeyError` from
`review_record['review_id']` (line 272) when the payload has no review id. -/
def save_review (db : DB) (res : Results) (review : Dict) (business_place_id : PyVal) :
    (DB × Results) × (Bool × PyVal) :=
  match reviewDatetimeStep review with
  | Except.error e =>
      ((db, { res with reviews_errors := res.reviews_errors ++ [(pyGet review "review_id", e)] }),
       (false, PyVal.str e))
  | Except.ok rdu =>
    let review_record := stripNone (mkReviewRecord review business_place_id rdu)
    match dictGet? review_record "review_id" with
    | Option.none =>
        ((db, { res with reviews_errors :=
            res.reviews_errors ++ [(pyGet review "review_id", "KeyError: review_id")] }),
         (false, PyVal.str "KeyError: review_id"))
    | Option.some rid =>
        if tableHas db.reviews "review_id" rid then
          (({ db with reviews := tableUpdate db.reviews "review_id" rid review_record }, res),
           (true, rid))
        else
          (({ db with reviews := db.reviews ++ [review_record] },
            { res with reviews_inserted := res.reviews_inserted + 1 }),
           (true, rid))

/-- The inner loop of `save_data` over `reviews_data` (scraper.py lines
341-342).  A non-dict element makes `review.get` raise `AttributeError`
inside `save_review`; the broad handler's own `review.get('review_id')`
raises again, so the exception escapes to `save_data` uncaught.
The third component is the uncaught exception, if any. -/
def processReviews (place_id : PyVal) :
    List PyVal → DB → Results → DB × Results × Option String
  | [], db, res => (db, res, Option.none)
  | PyVal.dict rd :: rest, db, res =>
      let st := save_review db res rd place_id
      processReviews place_id rest st.1.1 st.1.2
  | _ :: _, db, res => (db, res, Option.some "AttributeError: review is not a dict")

/-- One iteration of the `for business_data in data` loop of `save_data`
(scraper.py lines 328-349): a dict entry with a truthy `place_id` is saved
and its `reviews_data` processed; otherwise a structural error is recorded.
A non-dict entry makes `business_data.get` raise `AttributeError`. -/
def processEntry (db : DB) (res : Results) (entry : PyVal) : DB × Results × Option String :=
  match entry with
  | PyVal.dict bd =>
    let place_id := pyGet bd "place_id"
    if place_id.truthy then
      let st := save_business db res bd
      let reviews_data := pyGetD bd "reviews_data" (PyVal.list [])
      if reviews_data.truthy then
        match reviews_data with
        | PyVal.list rs => processReviews place_id rs st.1.1 st.1.2
        | _ => (st.1.1, st.1.2, Option.some "TypeError: reviews_data is not iterable")
      else (st.1.1, st.1.2, Option.none)
    else
      (db, { res with businesses_errors :=
          res.businesses_errors ++ [(PyVal.str "unknown", "No place_id provided for business")] },
       Option.none)
  | _ => (db, res, Option.some "AttributeError: business_data is not a dict")

/-- The whole `for` loop of `save_data`, stopping at the first uncaught
exception and reporting the partial state reached. -/
def processAll : List PyVal → DB → Results → DB × Results × Option String
  | [], db, res => (db, res, Option.none)
  | e :: rest, db, res =>
    match processEntry db res e with
    | (db', res', Option.some msg) => (db', res', Option.some msg)
    | (db', res', Option.none) => processAll rest db' res'

/-- Observable outcome of one `save_data` call: the returned status, the
final `self.results`, the committed database, and the transaction/cleanup
events (commit count, rollback count, whether `close_connection` closed
the cursor and the connection). -/
structure SaveDataOut where
  success : Bool
  message : Option String
  results : Results
  db : DB
  commits : Nat
  rollbacks : Nat
  cursorClosed : Bool
  connClosed : Bool
deriving Repr

/-- Model of `save_data` (scraper.py lines 297-379).  `connectOk` abstracts
`connect_to_db` succeeding; `db0` is the committed database before the call
and `res0` the prior `self.results`.  A non-list `data` makes `len(data)`
raise before the loop; loop work happens on the uncommitted transaction,
committed once at the end or rolled back by the handler, and the `finally`
block closes cursor and connection whenever they were opened. -/
def save_data (connectOk : Bool) (db0 : DB) (res0 : Results) (data : PyVal) : SaveDataOut :=
  if connectOk then
    match data with
    | PyVal.list entries =>
      match processAll entries db0 initResults with
      | (dbF, resF, Option.none) =>
          { success := true, message := Option.none, results := resF, db := dbF,
            commits := 1, rollbacks := 0, cursorClosed := true, connClosed := true }
      | (_, resF, Option.some e) =>
          { success := false, message := Option.some e, results := resF, db := db0,
            commits := 0, rollbacks := 1, cursorClosed := true, connClosed := true }
    | _ =>
        { success := false, message := Option.some "TypeError: object has no len",
          results := res0, db := db0,
          commits := 0, rollbacks := 1, cursorClosed := true, connClosed := true }
  else
    { success := false, message := Option.some "connection failed", results := res0,
      db := db0, commits := 0, rollbacks := 0, cursorClosed := false, connClosed := false }

/-- Insertion into the in-memory pending set `running_request_ids.add(...)`. -/
def setAdd (s : List Nat) (x : Nat) : List Nat :=
  if x ∈ s then s else s ++ [x]

/-- The `for attempt in range(3)` submission loop of `get_all_reviews`
(scraper.py lines 394-405): on success the `else: break` leaves the loop;
on ANY exception the handler logs and immediately re-raises, so later
attempts are never reached.  The `[]` case is the `for ... else` branch
(log `after 3 attempts` and fall through with no id added). -/
def submitOnce (submit1 : Nat → Except String Nat) :
    List Nat → Except String (Option Nat)
  | [] => Except.ok Option.none
  | a :: _ =>
    match submit1 a with
    | Except.error e => Except.error e
    | Except.ok r => Except.ok (Option.some r)

/-- The outer submission loop of `get_all_reviews` over all place ids,
accumulating the pending request-id set. -/
def submitAll (submit : String → Nat → Except String Nat) :
    List String → List Nat → Except String (List Nat)
  | [], acc => Except.ok acc
  | p :: rest, acc =>
    match submitOnce (submit p) (List.range 3) with
    | Except.error e => Except.error e
    | Except.ok Option.none => submitAll submit rest acc
    | Except.ok (Option.some rid) => submitAll submit rest (setAdd acc rid)

/-- One polling round (scraper.py lines 414-419): check every pending id's
archive; a `Success` status appends its `data` to the results and removes
the id from the pending set.  `poll1 rid = (status, data)`. -/
def pollRound (poll1 : Nat → String × PyVal) (pending : List Nat) (results : List PyVal) :
    List Nat × List PyVal :=
  (pending.filter (fun rid => (poll1 rid).1 != "Success"),
   results ++ (pending.filter (fun rid => (poll1 rid).1 == "Success")).map (fun rid => (poll1 rid).2))

/-- The bounded polling loop (`while attempts and running_request_ids`),
with `fuel` remaining rounds and `round` the current round index; the poll
oracle takes the round index and the request id. -/
def pollLoop (poll : Nat → Nat → String × PyVal) :
    Nat → Nat → List Nat → List PyVal → List Nat × List PyVal
  | 0, _, pending, results => (pending, results)
  | Nat.succ fuel, round, pending, results =>
    if pending.isEmpty then (pending, results)
    else
      let st := pollRound (poll round) pending results
      pollLoop poll fuel (round + 1) st.1 st.2

/-- Model of `get_all_reviews` (scraper.py lines 381-422): submit one async
job per place id (3-attempt loop), poll for at most 10 rounds, then hand
each resolved payload to `save_data`.  The returned list is exactly the
sequence of payloads passed to `save_data` (the Python function returns
`None`); `Except.error` is an exception escaping to the caller. -/
def get_all_reviews (submit : String → Nat → Except String Nat)
    (poll : Nat → Nat → String × PyVal) (place_ids : List String) :
    Except String (List PyVal) :=
  match submitAll submit place_ids [] with
  | Except.error e => Except.error e
  | Except.ok rids => Except.ok (pollLoop poll 10 0 rids []).2

/-- The `for attempt in range(3)` submission loop of `get_all_reviews_last_24`
(scraper.py lines 430-440): success breaks out; an exception is logged and
swallowed unless `attempt == 2`, which re-raises.  The `[]` case is the
`for ... else` branch (log and fall through with no id added). -/
def submitLast24 (submit1 : Nat → Except String Nat) :
    List Nat → Except String (Option Nat)
  | [] => Except.ok Option.none
  | a :: rest =>
    match submit1 a with
    | Except.ok r => Except.ok (Option.some r)
    | Except.error e => if a == 2 then Except.error e else submitLast24 submit1 rest

/-- Model of `get_all_reviews_last_24` (scraper.py lines 424-460): one place
id, 3-attempt submission with swallow-and-retry, at most 20 polling rounds,
then `save_data` per resolved payload.  The whole body sits in an outer
`try/except` whose handler logs and re-raises, so it propagates any
exception unchanged. -/
def get_all_reviews_last_24 (submit1 : Nat → Except String Nat)
    (poll : Nat → Nat → String × PyVal) : Except String (List PyVal) :=
  let body : Except String (List PyVal) :=
    match submitLast24 submit1 (List.range 3) with
    | Except.error e => Except.error e
    | Except.ok idOpt =>
      let pending := match idOpt with
        | Option.some r => [r]
        | Option.none => []
      Except.ok (pollLoop poll 20 0 pending []).2
  match body with
  | Except.error e => Except.error e
  | Except.ok r => Except.ok r

theorem pyEq_refl_aux : ∀ (n : Nat) (a : PyVal), sizeOf a ≤ n → pyEq a a = true := by
  intro n
  induction n with
  | zero =>
    intro a h
    exfalso
    cases a <;> simp at h
  | succ n ih =>
    intro a h
    match a with
    | PyVal.none => simp [pyEq]
    | PyVal.bool b => simp [pyEq]
    | PyVal.int m => simp [pyEq]
    | PyVal.str s => simp [pyEq]
    | PyVal.dt t => simp [pyEq]
    | PyVal.list [] => simp [pyEq]
    | PyVal.list (x :: xs) =>
      have hx : sizeOf x ≤ n := by simp at h; omega
      have hxs : sizeOf (PyVal.list xs) ≤ n := by simp at h ⊢; omega
      simp [pyEq, ih x hx, ih (PyVal.list xs) hxs]
    | PyVal.dict [] => simp [pyEq]
    | PyVal.dict ((k, v) :: kvs) =>
      have hv : sizeOf v ≤ n := by simp at h; omega
      have hkvs : sizeOf (PyVal.dict kvs) ≤ n := by simp at h ⊢; omega
      simp [pyEq, ih v hv, ih (PyVal.dict kvs) hkvs]

theorem pyEq_refl (a : PyVal) : pyEq a a = true :=
  pyEq_refl_aux (sizeOf a) a (Nat.le_refl _)

theorem find?_filter_fuse {α : Type} (p q : α → Bool) (l : List α) :
    (l.filter q).find? p = l.find? (fun a => q a && p a) := by
  induction l with
  | nil => rfl
  | cons a l ih =>
    by_cases hq : q a
    · by_cases hp : p a
      · simp [List.filter_cons, hq, List.find?_cons, hp]
      · simp [List.filter_cons, hq, List.find?_cons, hp, ih]
    · simp [List.filter_cons, hq, List.find?_cons, ih]

theorem rowGet_of_dictGet? (r : Dict) (k : String) (v : PyVal)
    (h : dictGet? r k = Option.some v) : rowGet r k = v := by
  simp [rowGet, pyGet, pyGetD, h]

theorem rowGet_of_dictGet?_none (r : Dict) (k : String)
    (h : dictGet? r k = Option.none) : rowGet r k = PyVal.none := by
  simp [rowGet, pyGet, pyGetD, h]

theorem rowGet_setField_self (r : Dict) (k : String) (v : PyVal) :
    rowGet (setField r k v) k = v := by
  induction r with
  | nil => simp [setField, rowGet, pyGet, pyGetD, dictGet?, List.find?_cons]
  | cons p r ih =>
    by_cases hp : (p.1 == k) = true
    · simp [setField, hp, rowGet, pyGet, pyGetD, dictGet?, List.find?_cons]
    · simp only [setField, hp, if_neg]
      simp only [rowGet, pyGet, pyGetD, dictGet?, List.find?_cons, hp] at ih ⊢
      simpa [hp] using ih

theorem rowGet_setField_ne (r : Dict) (k1 k : String) (v : PyVal) (h : k1 ≠ k) :
    rowGet (setField r k1 v) k = rowGet r k := by
  induction r with
  | nil => simp [setField, rowGet, pyGet, pyGetD, dictGet?, List.find?_cons, h]
  | cons p r ih =>
    by_cases hp : (p.1 == k1) = true
    · have hp' : p.1 = k1 := by simpa using hp
      simp [setField, hp, rowGet, pyGet, pyGetD, dictGet?, List.find?_cons, h, hp']
    · by_cases hpk : (p.1 == k) = true
      · simp [setField, hp, rowGet, pyGet, pyGetD, dictGet?, List.find?_cons, hpk]
      · simp only [setField, hp, if_neg]
        simp only [rowGet, pyGet, pyGetD, dictGet?, List.find?_cons, hpk] at ih ⊢
        simpa [hpk] using ih

theorem rowGet_applyUpdates_none (fs : Dict) (r : Dict) (k : String)
    (h : fs.find? (fun p => p.1 == k) = Option.none) :
    rowGet (applyUpdates r fs) k = rowGet r k := by
  induction fs generalizing r with
  | nil => rfl
  | cons p fs ih =>
    rw [List.find?_eq_none] at h
    have hp : ¬(p.1 == k) = true := h p (List.mem_cons_self p fs)
    have hrest : fs.find? (fun q => q.1 == k) = Option.none := by
      rw [List.find?_eq_none]
      intro x hx
      exact h x (List.mem_cons_of_mem p hx)
    show rowGet (applyUpdates (setField r p.1 p.2) fs) k = rowGet r k
    rw [ih _ hrest]
    exact rowGet_setField_ne r p.1 k p.2 (by simpa using hp)

theorem rowGet_applyUpdates_some (fs : Dict) (r : Dict) (k : String) (v : PyVal)
    (h : dictGet? fs k = Option.some v) (hnd : (fs.map Prod.fst).Nodup) :
    rowGet (applyUpdates r fs) k = v := by
  induction fs generalizing r with
  | nil => simp [dictGet?] at h
  | cons p fs ih =>
    by_cases hp : (p.1 == k) = true
    · have hv : p.2 = v := by
        simp [dictGet?, List.find?_cons, hp] at h
        exact h
      have hk : p.1 = k := by simpa using hp
      have hnotin : k ∉ fs.map Prod.fst := by
        simp only [List.map_cons, List.nodup_cons] at hnd
        rw [← hk]
        exact hnd.1
      have hrest : fs.find? (fun q => q.1 == k) = Option.none := by
        rw [List.find?_eq_none]
        intro x hx hxk
        apply hnotin
        have hx1 : x.1 = k := by simpa using hxk
        rw [← hx1]
        exact List.mem_map_of_mem Prod.fst hx
      show rowGet (applyUpdates (setField r p.1 p.2) fs) k = v
      rw [rowGet_applyUpdates_none fs _ k hrest, hk, hv]
      exact rowGet_setField_self r k v
    · have hrest : dictGet? fs k = Option.some v := by
        simpa [dictGet?, List.find?_cons, hp] using h
      have hnd' : (fs.map Prod.fst).Nodup := by
        simp only [List.map_cons, List.nodup_cons] at hnd
        exact hnd.2
      show rowGet (applyUpdates (setField r p.1 p.2) fs) k = v
      exact ih _ hrest hnd'


theorem countRows_append_match (t : List Dict) (key : String) (pid : PyVal) (row : Dict)
    (h : pyEq (rowGet row key) pid = true) :
    countRows (t ++ [row]) key pid = countRows t key pid + 1 := by
  unfold countRows
  rw [List.filter_append, List.length_append]
  simp [List.filter_cons, h]

theorem tableHas_false_of_count_zero (t : List Dict) (key : String) (pid : PyVal)
    (h : countRows t key pid = 0) : tableHas t key pid = false := by
  unfold countRows at h
  rw [List.length_eq_zero, List.filter_eq_nil_iff] at h
  unfold tableHas
  rw [List.any_eq_false]
  exact h

theorem tableHas_true_of_mem (t : List Dict) (key : String) (pid : PyVal) (row : Dict)
    (hm : row ∈ t) (h : pyEq (rowGet row key) pid = true) :
    tableHas t key pid = true := by
  unfold tableHas
  rw [List.any_eq_true]
  exact ⟨row, hm, h⟩

theorem countRows_tableUpdate (t : List Dict) (key : String) (pid : PyVal) (fs : Dict)
    (hset : ∀ r : Dict, pyEq (rowGet r key) pid = true →
            pyEq (rowGet (applyUpdates r fs) key) pid = true) :
    countRows (tableUpdate t key pid fs) key pid = countRows t key pid := by
  induction t with
  | nil => rfl
  | cons r t ih =>
    unfold tableUpdate countRows at ih ⊢
    by_cases hr : pyEq (rowGet r key) pid = true
    · simp [List.map_cons, List.filter_cons, hr, hset r hr, ih]
    · have hr' : pyEq (rowGet r key) pid = false := by
        cases hh : pyEq (rowGet r key) pid
        · rfl
        · exact absurd hh hr
      simp [List.map_cons, List.filter_cons, hr', ih]

theorem mkBusiness_keys_nodup (bd : Dict) : ((mkBusiness bd).map Prod.fst).Nodup := by
  have h : (mkBusiness bd).map Prod.fst =
    ["query", "name", "name_for_emails", "place_id", "google_id", "kgmid",
     "full_address", "borough", "street", "postal_code", "area_service",
     "country_code", "country", "city", "us_state", "state", "plus_code",
     "latitude", "longitude", "h3", "time_zone", "popular_times", "site",
     "phone", "type", "logo", "description", "typical_time_spent", "located_in",
     "located_google_id", "category", "subtypes", "posts", "reviews_tags",
     "rating", "reviews_count", "photos_count", "cid", "reviews_link",
     "reviews_id", "photo", "street_view", "working_hours_old_format",
     "working_hours", "other_hours", "business_status", "about", "range",
     "reviews_per_score", "reviews_per_score_1", "reviews_per_score_2",
     "reviews_per_score_3", "reviews_per_score_4", "reviews_per_score_5",
     "reservation_links", "booking_appointment_link", "menu_link",
     "order_links", "owner_id", "verified", "owner_title", "owner_link",
     "location_link", "location_reviews_link"] := rfl
  rw [h]
  decide

theorem mkReviewRecord_keys_nodup (rd : Dict) (pid rdu : PyVal) :
    ((mkReviewRecord rd pid rdu).map Prod.fst).Nodup := by
  have h : (mkReviewRecord rd pid rdu).map Prod.fst =
    ["business_place_id", "google_id", "review_id", "review_pagination_id",
     "author_link", "author_title", "author_id", "author_image",
     "author_reviews_count", "author_ratings_count", "review_text",
     "review_img_urls", "review_img_url", "review_questions",
     "review_photo_ids", "owner_answer", "owner_answer_timestamp",
     "owner_answer_timestamp_datetime_utc", "review_link", "review_rating",
     "review_timestamp", "review_datetime_utc", "review_likes", "reviews_id",
     "replies"] := rfl
  rw [h]
  decide

theorem stripNone_keys_nodup (d : Dict) (h : (d.map Prod.fst).Nodup) :
    ((stripNone d).map Prod.fst).Nodup :=
  ((List.filter_sublist d).map Prod.fst).nodup h

theorem strip_mkBusiness_place_id (bd : Dict) (pid : PyVal)
    (h : pyGet bd "place_id" = pid) (hn : pid.isNone = false) :
    dictGet? (stripNone (mkBusiness bd)) "place_id" = Option.some pid := by
  unfold dictGet? stripNone
  rw [find?_filter_fuse]
  simp [mkBusiness, List.find?, h, hn]

theorem strip_mkReviewRecord_review_id (rd : Dict) (pid rdu : PyVal) (rid : PyVal)
    (h : pyGet rd "review_id" = rid) (hn : rid.isNone = false) :
    dictGet? (stripNone (mkReviewRecord rd pid rdu)) "review_id" = Option.some rid := by
  unfold dictGet? stripNone
  rw [find?_filter_fuse]
  simp [mkReviewRecord, List.find?, h, hn]

theorem strip_mkReviewRecord_review_id_none (rd : Dict) (pid rdu : PyVal)
    (h : pyGet rd "review_id" = PyVal.none) :
    dictGet? (stripNone (mkReviewRecord rd pid rdu)) "review_id" = Option.none := by
  unfold dictGet? stripNone
  rw [find?_filter_fuse]
  simp [mkReviewRecord, List.find?, h, PyVal.isNone]

theorem strip_mkReviewRecord_rdu_none (rd : Dict) (pid : PyVal) :
    dictGet? (stripNone (mkReviewRecord rd pid PyVal.none)) "review_datetime_utc"
      = Option.none := by
  unfold dictGet? stripNone
  rw [find?_filter_fuse]
  simp [mkReviewRecord, List.find?, PyVal.isNone]

theorem stripNone_all_not_none (d : Dict) :
    (stripNone d).all (fun p => !p.2.isNone) = true := by
  rw [List.all_eq_true]
  intro x hx
  exact (List.mem_filter.mp hx).2

theorem dictGet?_none_find? (fs : Dict) (k : String) (h : dictGet? fs k = Option.none) :
    fs.find? (fun p => p.1 == k) = Option.none := by
  unfold dictGet? at h
  cases hf : fs.find? (fun p => p.1 == k) with
  | none => rfl
  | some p => rw [hf] at h; simp at h

/-- C4: every field whose source value is null/missing is dropped from the
normalized business and review records before the write, so no written field
carries an explicit null, and a column absent from an update's `SET` list is
left untouched on the existing row. -/
theorem c4_null_fields_omitted :
    (∀ bd : Dict, (stripNone (mkBusiness bd)).all (fun p => !p.2.isNone) = true) ∧
    (∀ (rd : Dict) (pid rdu : PyVal),
      (stripNone (mkReviewRecord rd pid rdu)).all (fun p => !p.2.isNone) = true) ∧
    (∀ (r fs : Dict) (k : String), dictGet? fs k = Option.none →
      rowGet (applyUpdates r fs) k = rowGet r k) := by
  refine ⟨fun bd => stripNone_all_not_none _, fun rd pid rdu => stripNone_all_not_none _, ?_⟩
  intro r fs k h
  exact rowGet_applyUpdates_none fs r k (dictGet?_none_find? fs k h)

/-- Witness for C4: the update-preservation clause applied at a concrete row
and update list whose `SET` list omits the probed column. -/
theorem c4_null_fields_omitted_witness :
    dictGet? [("b", PyVal.int 2)] "c" = Option.none ∧
    rowGet (applyUpdates [("a", PyVal.int 1)] [("b", PyVal.int 2)]) "c"
      = rowGet [("a", PyVal.int 1)] "c" :=
  ⟨rfl, c4_null_fields_omitted.2.2 [("a", PyVal.int 1)] [("b", PyVal.int 2)] "c" rfl⟩

/-- C7: a result-set entry with a null/missing `place_id` only records a
structural error: the database is untouched, its reviews are never attempted,
no exception is raised, and the loop continues with the remaining entries. -/
theorem c7_missing_place_id_structural_error (db : DB) (res : Results) (bd : Dict)
    (rest : List PyVal) (h : pyGet bd "place_id" = PyVal.none) :
    processEntry db res (PyVal.dict bd) =
      (db, { res with businesses_errors := res.businesses_errors ++
              [(PyVal.str "unknown", "No place_id provided for business")] },
       Option.none) ∧
    processAll (PyVal.dict bd :: rest) db res =
      processAll rest db
        { res with businesses_errors := res.businesses_errors ++
            [(PyVal.str "unknown", "No place_id provided for business")] } := by
  have h1 : processEntry db res (PyVal.dict bd) =
      (db, { res with businesses_errors := res.businesses_errors ++
              [(PyVal.str "unknown", "No place_id provided for business")] },
       Option.none) := by
    simp [processEntry, h, PyVal.truthy]
  refine ⟨h1, ?_⟩
  conv_lhs => rw [processAll]
  rw [h1]

/-- Witness for C7: a concrete payload with no `place_id`. -/
theorem c7_missing_place_id_structural_error_witness :
    pyGet [("name", PyVal.str "n")] "place_id" = PyVal.none ∧
    processEntry ⟨[], []⟩ initResults (PyVal.dict [("name", PyVal.str "n")]) =
      (⟨[], []⟩, { initResults with businesses_errors :=
          initResults.businesses_errors ++
            [(PyVal.str "unknown", "No place_id provided for business")] },
       Option.none) :=
  ⟨rfl, (c7_missing_place_id_structural_error ⟨[], []⟩ initResults
      [("name", PyVal.str "n")] [] rfl).1⟩


theorem save_review_spec (db : DB) (res : Results) (rd : Dict) (pid rdu rid : PyVal)
    (hdt : reviewDatetimeStep rd = Except.ok rdu)
    (hg : dictGet? (stripNone (mkReviewRecord rd pid rdu)) "review_id" = Option.some rid) :
    (tableHas db.reviews "review_id" rid = false →
       save_review db res rd pid =
         (({ db with reviews := db.reviews ++ [stripNone (mkReviewRecord rd pid rdu)] },
           { res with reviews_inserted := res.reviews_inserted + 1 }), (true, rid))) ∧
    (tableHas db.reviews "review_id" rid = true →
       save_review db res rd pid =
         (({ db with reviews :=
               tableUpdate db.reviews "review_id" rid (stripNone (mkReviewRecord rd pid rdu)) },
           res), (true, rid))) := by
  constructor
  · intro hhas
    simp [save_review, hdt, hg, hhas]
  · intro hhas
    simp [save_review, hdt, hg, hhas]

/-- C5: a review whose `review_datetime_utc` is a string that fails to parse
with `%m/%d/%Y %H:%M:%S` keeps `review_datetime_utc = None`, so the field is
omitted from the written record; the call does not raise and (the rest of the
write succeeding in the ideal store) still returns success and records no
error. -/
theorem c5_bad_timestamp_omitted_still_success (db : DB) (res : Results) (rd : Dict)
    (pid : PyVal) (s : String)
    (h1 : pyGet rd "review_datetime_utc" = PyVal.str s)
    (h2 : parseMDYHMS s = Option.none)
    (h3 : (pyGet rd "review_id").isNone = false) :
    reviewDatetimeStep rd = Except.ok PyVal.none ∧
    dictGet? (stripNone (mkReviewRecord rd pid PyVal.none)) "review_datetime_utc"
      = Option.none ∧
    (save_review db res rd pid).2.1 = true ∧
    (save_review db res rd pid).1.2.reviews_errors = res.reviews_errors := by
  have hstep : reviewDatetimeStep rd = Except.ok PyVal.none := by
    unfold reviewDatetimeStep
    rw [h1]
    by_cases hs : s = ""
    · simp [PyVal.truthy, hs]
    · simp [PyVal.truthy, hs, h2]
  have hg : dictGet? (stripNone (mkReviewRecord rd pid PyVal.none)) "review_id"
      = Option.some (pyGet rd "review_id") :=
    strip_mkReviewRecord_review_id rd pid PyVal.none (pyGet rd "review_id") rfl h3
  have hspec := save_review_spec db res rd pid PyVal.none (pyGet rd "review_id") hstep hg
  refine ⟨hstep, strip_mkReviewRecord_rdu_none rd pid, ?_⟩
  by_cases hhas : tableHas db.reviews "review_id" (pyGet rd "review_id")
  · rw [hspec.2 hhas]
    exact ⟨rfl, rfl⟩
  · rw [hspec.1 (by simpa using hhas)]
    exact ⟨rfl, rfl⟩

/-- Witness for C5: a concrete review with an unparseable timestamp. -/
theorem c5_bad_timestamp_omitted_still_success_witness :
    pyGet [("review_id", PyVal.str "r1"), ("review_datetime_utc", PyVal.str "sometime")]
        "review_datetime_utc" = PyVal.str "sometime" ∧
    parseMDYHMS "sometime" = Option.none ∧
    (save_review ⟨[], []⟩ initResults
        [("review_id", PyVal.str "r1"), ("review_datetime_utc", PyVal.str "sometime")]
        (PyVal.str "p")).2.1 = true :=
  ⟨rfl, rfl,
   (c5_bad_timestamp_omitted_still_success ⟨[], []⟩ initResults
      [("review_id", PyVal.str "r1"), ("review_datetime_utc", PyVal.str "sometime")]
      (PyVal.str "p") "sometime" rfl rfl rfl).2.2.1⟩

/-- C10: a review payload with no `review_id` does not raise out of
`save_review`: the `review_record['review_id']` lookup fails inside the try
block, the broad handler records `(None, error)` in `reviews_errors`, a
failure tuple is returned, the database is untouched, and the sibling
reviews of the batch are still processed. -/
theorem c10_missing_review_id_recorded_error (db : DB) (res : Results) (rd : Dict)
    (pid rdu : PyVal) (rest : List PyVal)
    (hdt : reviewDatetimeStep rd = Except.ok rdu)
    (h : pyGet rd "review_id" = PyVal.none) :
    save_review db res rd pid =
      ((db, { res with reviews_errors := res.reviews_errors ++
              [(PyVal.none, "KeyError: review_id")] }),
       (false, PyVal.str "KeyError: review_id")) ∧
    processReviews pid (PyVal.dict rd :: rest) db res =
      processReviews pid rest db
        { res with reviews_errors := res.reviews_errors ++
            [(PyVal.none, "KeyError: review_id")] } := by
  have hg := strip_mkReviewRecord_review_id_none rd pid rdu h
  have h1 : save_review db res rd pid =
      ((db, { res with reviews_errors := res.reviews_errors ++
              [(PyVal.none, "KeyError: review_id")] }),
       (false, PyVal.str "KeyError: review_id")) := by
    simp [save_review, hdt, hg, h]
  refine ⟨h1, ?_⟩
  conv_lhs => rw [processReviews]
  rw [h1]

/-- Witness for C10: a concrete review payload lacking `review_id`. -/
theorem c10_missing_review_id_recorded_error_witness :
    reviewDatetimeStep [("review_text", PyVal.str "ok")] = Except.ok PyVal.none ∧
    pyGet [("review_text", PyVal.str "ok")] "review_id" = PyVal.none ∧
    save_review ⟨[], []⟩ initResults [("review_text", PyVal.str "ok")] (PyVal.str "p") =
      ((⟨[], []⟩, { initResults with reviews_errors := initResults.reviews_errors ++
              [(PyVal.none, "KeyError: review_id")] }),
       (false, PyVal.str "KeyError: review_id")) :=
  ⟨rfl, rfl,
   (c10_missing_review_id_recorded_error ⟨[], []⟩ initResults
      [("review_text", PyVal.str "ok")] (PyVal.str "p") PyVal.none [] rfl rfl).1⟩

/-- C2: the claim (and spec section 4.3) says `get_all_reviews` retries each
submission up to 3 times and propagates only after all 3 attempts throw.  The
code instead logs and immediately re-raises inside the `except` block, so the
first exception propagates and attempts 2 and 3 (and the unreachable
`for/else` log line `after 3 attempts`) never run: at an oracle that fails
only on attempt 0 and would succeed on attempts 1 and 2, the whole call
already raises. -/
theorem c2_get_all_reviews_submission_raises_immediately :
    submitOnce (fun a => if a = 0 then Except.error "boom" else Except.ok 7)
      (List.range 3) = Except.error "boom" ∧
    get_all_reviews (fun _ a => if a = 0 then Except.error "boom" else Except.ok 7)
      (fun _ _ => ("Pending", PyVal.none)) ["p"] = Except.error "boom" :=
  ⟨rfl, rfl⟩

/-- C3 counterexample: with a submission oracle failing all 3 attempts and a
poll oracle that would answer `Success`, `get_all_reviews_last_24` propagates
the exception to its caller instead of continuing to the polling phase. -/
theorem c3_counterexample_last24_failure_propagates :
    get_all_reviews_last_24 (fun _ => Except.error "boom")
      (fun _ _ => ("Success", PyVal.str "payload")) = Except.error "boom" ∧
    (get_all_reviews_last_24 (fun _ => Except.error "boom")
      (fun _ _ => ("Success", PyVal.str "payload"))).isOk = false :=
  ⟨rfl, rfl⟩

/-- C3 (amended): in `get_all_reviews_last_24` only the last of the 3
submission attempts re-raises (earlier attempts swallow the exception and
retry), and a submission failure surviving all 3 attempts propagates to the
caller through the outer log-and-re-raise handler (the log-and-continue
`for/else` branch is unreachable). -/
theorem c3_last24_retry_and_propagate (submit1 : Nat → Except String Nat)
    (poll : Nat → Nat → String × PyVal) (e0 e1 e2 : String) (r : Nat) :
    (submit1 0 = Except.error e0 → submit1 1 = Except.ok r →
       submitLast24 submit1 (List.range 3) = Except.ok (Option.some r)) ∧
    (submit1 0 = Except.error e0 → submit1 1 = Except.error e1 →
       submit1 2 = Except.ok r →
       submitLast24 submit1 (List.range 3) = Except.ok (Option.some r)) ∧
    (submit1 0 = Except.error e0 → submit1 1 = Except.error e1 →
       submit1 2 = Except.error e2 →
       get_all_reviews_last_24 submit1 poll = Except.error e2) := by
  have hr : List.range 3 = [0, 1, 2] := rfl
  refine ⟨?_, ?_, ?_⟩
  · intro h0 h1
    rw [hr]
    simp [submitLast24, h0, h1]
  · intro h0 h1 h2
    rw [hr]
    simp [submitLast24, h0, h1, h2]
  · intro h0 h1 h2
    unfold get_all_reviews_last_24
    rw [hr]
    simp [submitLast24, h0, h1, h2]

/-- Witness for C3: concrete oracles exercising both the swallow-and-retry
conclusion and the propagate-after-3-failures conclusion. -/
theorem c3_last24_retry_and_propagate_witness :
    submitLast24 (fun a => if a = 0 then Except.error "e0" else Except.ok 5)
      (List.range 3) = Except.ok (Option.some 5) ∧
    get_all_reviews_last_24 (fun _ => Except.error "e")
      (fun _ _ => ("Pending", PyVal.none)) = Except.error "e" :=
  ⟨(c3_last24_retry_and_propagate (fun a => if a = 0 then Except.error "e0" else Except.ok 5)
      (fun _ _ => ("Pending", PyVal.none)) "e0" "x" "x" 5).1 rfl rfl,
   (c3_last24_retry_and_propagate (fun _ => Except.error "e")
      (fun _ _ => ("Pending", PyVal.none)) "e" "e" "e" 0).2.2 rfl rfl rfl⟩


theorem tableHas_true_of_count_pos (t : List Dict) (key : String) (pid : PyVal)
    (h : 0 < countRows t key pid) : tableHas t key pid = true := by
  unfold countRows at h
  obtain ⟨x, hx⟩ := List.exists_mem_of_length_pos h
  have hx' := List.mem_filter.mp hx
  exact tableHas_true_of_mem t key pid x hx'.1 hx'.2

theorem save_business_spec (db : DB) (res : Results) (bd : Dict) (pid : PyVal)
    (hg : dictGet? (stripNone (mkBusiness bd)) "place_id" = Option.some pid) :
    (tableHas db.businesses "place_id" pid = false →
       (save_business db res bd).1.1.businesses
           = db.businesses ++ [stripNone (mkBusiness bd)] ∧
       (save_business db res bd).1.2.businesses_inserted
           = res.businesses_inserted + 1) ∧
    (tableHas db.businesses "place_id" pid = true →
       (save_business db res bd).1.1.businesses
           = tableUpdate db.businesses "place_id" pid (stripNone (mkBusiness bd)) ∧
       (save_business db res bd).1.2.businesses_inserted
           = res.businesses_inserted) := by
  constructor <;> intro hhas <;>
    cases hname : dictGet? (stripNone (mkBusiness bd)) "name" <;>
      simp [save_business, hg, hhas, hname]

/-- C1: with the same non-null place identifier in both payloads and no row
stored for it yet, the first `save_business` call takes the insert branch
(one row appears, the insert counter increments) and the second call takes
the update branch (the row count stays one and the counter does not move). -/
theorem c1_business_upsert_single_row (db : DB) (res : Results) (bd bd2 : Dict)
    (pid : PyVal)
    (h1 : pyGet bd "place_id" = pid) (hn : pid.isNone = false)
    (h2 : pyGet bd2 "place_id" = pid)
    (h0 : countRows db.businesses "place_id" pid = 0) :
    countRows (save_business db res bd).1.1.businesses "place_id" pid = 1 ∧
    (save_business db res bd).1.2.businesses_inserted = res.businesses_inserted + 1 ∧
    countRows (save_business (save_business db res bd).1.1
        (save_business db res bd).1.2 bd2).1.1.businesses "place_id" pid = 1 ∧
    (save_business (save_business db res bd).1.1
        (save_business db res bd).1.2 bd2).1.2.businesses_inserted
      = (save_business db res bd).1.2.businesses_inserted := by
  have hg1 := strip_mkBusiness_place_id bd pid h1 hn
  have hg2 := strip_mkBusiness_place_id bd2 pid h2 hn
  have hpred1 : pyEq (rowGet (stripNone (mkBusiness bd)) "place_id") pid = true := by
    rw [rowGet_of_dictGet? _ _ _ hg1]
    exact pyEq_refl pid
  have spec1 := (save_business_spec db res bd pid hg1).1
      (tableHas_false_of_count_zero _ _ _ h0)
  have hc1 : countRows (save_business db res bd).1.1.businesses "place_id" pid = 1 := by
    rw [spec1.1, countRows_append_match _ _ _ _ hpred1, h0]
  have hhas2 : tableHas (save_business db res bd).1.1.businesses "place_id" pid = true := by
    rw [spec1.1]
    exact tableHas_true_of_mem _ _ _ _
      (List.mem_append_right _ (List.mem_singleton.mpr rfl)) hpred1
  have spec2 := (save_business_spec (save_business db res bd).1.1
      (save_business db res bd).1.2 bd2 pid hg2).2 hhas2
  have hset : ∀ r : Dict, pyEq (rowGet r "place_id") pid = true →
      pyEq (rowGet (applyUpdates r (stripNone (mkBusiness bd2))) "place_id") pid = true := by
    intro r _
    rw [rowGet_applyUpdates_some _ _ _ _ hg2
      (stripNone_keys_nodup _ (mkBusiness_keys_nodup bd2))]
    exact pyEq_refl pid
  have hc2 : countRows (save_business (save_business db res bd).1.1
      (save_business db res bd).1.2 bd2).1.1.businesses "place_id" pid = 1 := by
    rw [spec2.1, countRows_tableUpdate _ _ _ _ hset, hc1]
  exact ⟨hc1, spec1.2, hc2, spec2.2⟩

/-- Witness for C1: two concrete payloads with the same place id against an
empty store. -/
theorem c1_business_upsert_single_row_witness :
    pyGet [("place_id", PyVal.str "p"), ("name", PyVal.str "n")] "place_id"
        = PyVal.str "p" ∧
    countRows (⟨[], []⟩ : DB).businesses "place_id" (PyVal.str "p") = 0 ∧
    countRows (save_business ⟨[], []⟩ initResults
        [("place_id", PyVal.str "p"), ("name", PyVal.str "n")]).1.1.businesses
        "place_id" (PyVal.str "p") = 1 ∧
    countRows (save_business
        (save_business ⟨[], []⟩ initResults
          [("place_id", PyVal.str "p"), ("name", PyVal.str "n")]).1.1
        (save_business ⟨[], []⟩ initResults
          [("place_id", PyVal.str "p"), ("name", PyVal.str "n")]).1.2
        [("place_id", PyVal.str "p"), ("name", PyVal.str "n2")]).1.1.businesses
        "place_id" (PyVal.str "p") = 1 := by
  have h := c1_business_upsert_single_row ⟨[], []⟩ initResults
    [("place_id", PyVal.str "p"), ("name", PyVal.str "n")]
    [("place_id", PyVal.str "p"), ("name", PyVal.str "n2")]
    (PyVal.str "p") rfl rfl rfl rfl
  exact ⟨rfl, rfl, h.1, h.2.2.1⟩

/-- C6: within a batch, `save_review` increments the `reviews_inserted`
counter exactly on the insert branch for a previously-unseen review id (the
row count for that id becomes one), and never on the update branch for an
already-stored review id (counter and row count unchanged). -/
theorem c6_reviews_inserted_counter (db : DB) (res : Results) (rd : Dict)
    (pid rdu rid : PyVal)
    (hdt : reviewDatetimeStep rd = Except.ok rdu)
    (hrid : pyGet rd "review_id" = rid) (hn : rid.isNone = false) :
    (countRows db.reviews "review_id" rid = 0 →
       (save_review db res rd pid).1.2.reviews_inserted = res.reviews_inserted + 1 ∧
       countRows (save_review db res rd pid).1.1.reviews "review_id" rid = 1) ∧
    (0 < countRows db.reviews "review_id" rid →
       (save_review db res rd pid).1.2.reviews_inserted = res.reviews_inserted ∧
       countRows (save_review db res rd pid).1.1.reviews "review_id" rid
         = countRows db.reviews "review_id" rid) := by
  have hg := strip_mkReviewRecord_review_id rd pid rdu rid hrid hn
  have hspec := save_review_spec db res rd pid rdu rid hdt hg
  have hpred : pyEq (rowGet (stripNone (mkReviewRecord rd pid rdu)) "review_id") rid
      = true := by
    rw [rowGet_of_dictGet? _ _ _ hg]
    exact pyEq_refl rid
  constructor
  · intro h0
    rw [hspec.1 (tableHas_false_of_count_zero _ _ _ h0)]
    refine ⟨rfl, ?_⟩
    show countRows (db.reviews ++ [stripNone (mkReviewRecord rd pid rdu)])
        "review_id" rid = 1
    rw [countRows_append_match _ _ _ _ hpred, h0]
  · intro hpos
    rw [hspec.2 (tableHas_true_of_count_pos _ _ _ hpos)]
    refine ⟨rfl, ?_⟩
    show countRows (tableUpdate db.reviews "review_id" rid
        (stripNone (mkReviewRecord rd pid rdu))) "review_id" rid
      = countRows db.reviews "review_id" rid
    refine countRows_tableUpdate _ _ _ _ ?_
    intro r _
    rw [rowGet_applyUpdates_some _ _ _ _ hg
      (stripNone_keys_nodup _ (mkReviewRecord_keys_nodup rd pid rdu))]
    exact pyEq_refl rid

/-- Witness for C6: the same concrete review saved twice into an empty store. -/
theorem c6_reviews_inserted_counter_witness :
    reviewDatetimeStep [("review_id", PyVal.str "r1")] = Except.ok PyVal.none ∧
    countRows (⟨[], []⟩ : DB).reviews "review_id" (PyVal.str "r1") = 0 ∧
    (save_review ⟨[], []⟩ initResults [("review_id", PyVal.str "r1")]
        (PyVal.str "p")).1.2.reviews_inserted = initResults.reviews_inserted + 1 := by
  have h := (c6_reviews_inserted_counter ⟨[], []⟩ initResults
    [("review_id", PyVal.str "r1")] (PyVal.str "p") PyVal.none (PyVal.str "r1")
    rfl rfl rfl).1 rfl
  exact ⟨rfl, rfl, h.1⟩

/-- C9: `save_data` commits at most once; it commits exactly once, with the
database state produced by processing the ENTIRE result set, when the loop
raises no uncaught exception; on an uncaught exception it rolls the
transaction back (the committed database is unchanged, so no partial batch
persists) and returns an error-status result instead of raising; and
whenever the connection was established, cursor and connection are closed on
every exit path. -/
theorem c9_save_data_commit_rollback_cleanup (connectOk : Bool) (db0 : DB)
    (res0 : Results) (data : PyVal) :
    (save_data connectOk db0 res0 data).commits ≤ 1 ∧
    (∀ entries dbF resF, connectOk = true → data = PyVal.list entries →
       processAll entries db0 initResults = (dbF, resF, Option.none) →
       save_data connectOk db0 res0 data =
         { success := true, message := Option.none, results := resF, db := dbF,
           commits := 1, rollbacks := 0, cursorClosed := true, connClosed := true }) ∧
    (∀ entries dbF resF e, connectOk = true → data = PyVal.list entries →
       processAll entries db0 initResults = (dbF, resF, Option.some e) →
       save_data connectOk db0 res0 data =
         { success := false, message := Option.some e, results := resF, db := db0,
           commits := 0, rollbacks := 1, cursorClosed := true, connClosed := true }) ∧
    (connectOk = true →
       (save_data connectOk db0 res0 data).cursorClosed = true ∧
       (save_data connectOk db0 res0 data).connClosed = true) := by
  refine ⟨?_, ?_, ?_, ?_⟩
  · cases connectOk with
    | false => simp [save_data]
    | true =>
      cases data with
      | list entries =>
        rcases hp : processAll entries db0 initResults with ⟨dbF, resF, exc⟩
        cases exc <;> simp [save_data, hp]
      | none => simp [save_data]
      | bool b => simp [save_data]
      | int n => simp [save_data]
      | str s => simp [save_data]
      | dict xs => simp [save_data]
      | dt t => simp [save_data]
  · intro entries dbF resF hconn hdata hproc
    subst hconn hdata
    simp [save_data, hproc]
  · intro entries dbF resF e hconn hdata hproc
    subst hconn hdata
    simp [save_data, hproc]
  · intro hconn
    subst hconn
    cases data with
    | list entries =>
      rcases hp : processAll entries db0 initResults with ⟨dbF, resF, exc⟩
      cases exc <;> simp [save_data, hp]
    | none => simp [save_data]
    | bool b => simp [save_data]
    | int n => simp [save_data]
    | str s => simp [save_data]
    | dict xs => simp [save_data]
    | dt t => simp [save_data]

/-- Witness for C9: a one-entry batch that succeeds (commit once, final
state) and a batch with a non-dict entry that raises (rollback, committed
state unchanged). -/
theorem c9_save_data_commit_rollback_cleanup_witness :
    (save_data true ⟨[], []⟩ initResults
        (PyVal.list [PyVal.dict [("place_id", PyVal.str "p"), ("name", PyVal.str "n")]])).commits
      = 1 ∧
    (save_data true ⟨[], []⟩ initResults (PyVal.list [PyVal.int 0])).rollbacks = 1 ∧
    (save_data true ⟨[], []⟩ initResults (PyVal.list [PyVal.int 0])).db = (⟨[], []⟩ : DB) := by
  have hok := (c9_save_data_commit_rollback_cleanup true ⟨[], []⟩ initResults
      (PyVal.list [PyVal.dict [("place_id", PyVal.str "p"), ("name", PyVal.str "n")]])).2.1
      [PyVal.dict [("place_id", PyVal.str "p"), ("name", PyVal.str "n")]]
      (processAll [PyVal.dict [("place_id", PyVal.str "p"), ("name", PyVal.str "n")]]
        ⟨[], []⟩ initResults).1
      (processAll [PyVal.dict [("place_id", PyVal.str "p"), ("name", PyVal.str "n")]]
        ⟨[], []⟩ initResults).2.1
      rfl rfl rfl
  have hbad := (c9_save_data_commit_rollback_cleanup true ⟨[], []⟩ initResults
      (PyVal.list [PyVal.int 0])).2.2.1 [PyVal.int 0] ⟨[], []⟩ initResults
      "AttributeError: business_data is not a dict" rfl rfl rfl
  rw [hok, hbad]
  exact ⟨rfl, rfl, rfl⟩


theorem pollLoop_stuck (poll : Nat → Nat → String × PyVal) :
    ∀ (fuel round : Nat) (pending : List Nat) (results : List PyVal),
    (∀ x ∈ pending, ∀ r, (poll r x).1 ≠ "Success") →
    pollLoop poll fuel round pending results = (pending, results) := by
  intro fuel
  induction fuel with
  | zero => intro round pending results _; rfl
  | succ fuel ih =>
    intro round pending results h
    by_cases hpe : pending.isEmpty
    · simp [pollLoop, hpe]
    · have hstay : pending.filter (fun rid => (poll round rid).1 != "Success") = pending := by
        rw [List.filter_eq_self]
        intro x hx
        exact bne_iff_ne.mpr (h x hx round)
      have hgone : pending.filter (fun rid => (poll round rid).1 == "Success") = [] := by
        rw [List.filter_eq_nil_iff]
        intro x hx hsx
        exact h x hx round (by simpa using hsx)
      simp only [pollLoop, hpe, if_neg (by simp [hpe] : ¬pending.isEmpty = true)]
      rw [show pollRound (poll round) pending results
          = (pending, results) by simp [pollRound, hstay, hgone]]
      exact ih (round + 1) pending results h

theorem pollLoop_filter_never (poll : Nat → Nat → String × PyVal) (rid : Nat)
    (h : ∀ r, (poll r rid).1 ≠ "Success") :
    ∀ (fuel round : Nat) (pending : List Nat) (results : List PyVal),
    (pollLoop poll fuel round (pending.filter (fun x => x != rid)) results).2
      = (pollLoop poll fuel round pending results).2 := by
  intro fuel
  induction fuel with
  | zero => intro round pending results; rfl
  | succ fuel ih =>
    intro round pending results
    by_cases hpe : pending.isEmpty
    · have : pending = [] := List.isEmpty_iff.mp hpe
      subst this
      rfl
    · by_cases hfe : (pending.filter (fun x => x != rid)).isEmpty
      · have hall : ∀ x ∈ pending, x = rid := by
          intro x hx
          by_contra hne
          have : x ∈ pending.filter (fun x => x != rid) :=
            List.mem_filter.mpr ⟨hx, bne_iff_ne.mpr hne⟩
          rw [List.isEmpty_iff.mp hfe] at this
          exact absurd this (List.not_mem_nil x)
        have hstuck : pollLoop poll (fuel + 1) round pending results = (pending, results) := by
          refine pollLoop_stuck poll (fuel + 1) round pending results ?_
          intro x hx r
          rw [hall x hx]
          exact h r
        rw [hstuck]
        simp [pollLoop, hfe]
      · have hnpe : ¬pending.isEmpty = true := hpe
        have hnfe : ¬(pending.filter (fun x => x != rid)).isEmpty = true := hfe
        simp only [pollLoop, if_neg hnpe, if_neg hnfe]
        have hsfilter : (pending.filter (fun x => x != rid)).filter
              (fun x => (poll round x).1 == "Success")
            = pending.filter (fun x => (poll round x).1 == "Success") := by
          rw [List.filter_filter]
          refine List.filter_congr ?_
          intro x _
          by_cases hsx : ((poll round x).1 == "Success") = true
          · have : x ≠ rid := by
              intro hxr
              subst hxr
              exact h round (by simpa using hsx)
            simp [hsx, bne_iff_ne.mpr this]
          · simp [hsx]
        have hpfilter : (pending.filter (fun x => x != rid)).filter
              (fun x => (poll round x).1 != "Success")
            = (pending.filter (fun x => (poll round x).1 != "Success")).filter
              (fun x => x != rid) := by
          rw [List.filter_filter, List.filter_filter]
          exact List.filter_congr (fun x _ => Bool.and_comm _ _)
        show (pollLoop poll fuel (round + 1)
            (pollRound (poll round) (pending.filter (fun x => x != rid)) results).1
            (pollRound (poll round) (pending.filter (fun x => x != rid)) results).2).2
          = (pollLoop poll fuel (round + 1)
            (pollRound (poll round) pending results).1
            (pollRound (poll round) pending results).2).2
        simp only [pollRound, hsfilter, hpfilter]
        exact ih (round + 1) (pending.filter (fun x => (poll round x).1 != "Success")) _

theorem pollLoop_mem_never (poll : Nat → Nat → String × PyVal) (rid : Nat)
    (h : ∀ r, (poll r rid).1 ≠ "Success") :
    ∀ (fuel round : Nat) (pending : List Nat) (results : List PyVal),
    rid ∈ pending → rid ∈ (pollLoop poll fuel round pending results).1 := by
  intro fuel
  induction fuel with
  | zero => intro round pending results hm; exact hm
  | succ fuel ih =>
    intro round pending results hm
    by_cases hpe : pending.isEmpty
    · simpa [pollLoop, hpe] using hm
    · simp only [pollLoop, if_neg (by simp [hpe] : ¬pending.isEmpty = true)]
      refine ih (round + 1) _ _ ?_
      simp only [pollRound]
      exact List.mem_filter.mpr ⟨hm, bne_iff_ne.mpr (h round)⟩

/-- C8: a submitted job whose status never reads `Success` is silently
abandoned: `get_all_reviews` returns without error exactly the payload list
of the same run without that job (so `save_data` is never invoked for its
payload), the job id is still pending when the 10-round budget of
`get_all_reviews` runs out, and in `get_all_reviews_last_24` (20-round
budget, single job) the call returns without error and with no payload at
all. -/
theorem c8_unresolved_job_silently_abandoned (submit : String → Nat → Except String Nat)
    (poll : Nat → Nat → String × PyVal) (place_ids : List String) (rids : List Nat)
    (rid : Nat)
    (hsub : submitAll submit place_ids [] = Except.ok rids)
    (hnever : ∀ r, (poll r rid).1 ≠ "Success")
    (hmem : rid ∈ rids) :
    get_all_reviews submit poll place_ids
        = Except.ok ((pollLoop poll 10 0 (rids.filter (fun x => x != rid)) []).2) ∧
    rid ∈ (pollLoop poll 10 0 rids []).1 ∧
    (∀ submit1 : Nat → Except String Nat,
       submitLast24 submit1 (List.range 3) = Except.ok (Option.some rid) →
       get_all_reviews_last_24 submit1 poll = Except.ok []) := by
  refine ⟨?_, pollLoop_mem_never poll rid hnever 10 0 rids [] hmem, ?_⟩
  · unfold get_all_reviews
    rw [hsub]
    rw [pollLoop_filter_never poll rid hnever 10 0 rids []]
  · intro submit1 hsub1
    unfold get_all_reviews_last_24
    rw [hsub1]
    have hstuck := pollLoop_stuck poll 20 0 [rid] []
      (by intro x hx r; rw [List.mem_singleton.mp hx]; exact hnever r)
    show Except.ok (pollLoop poll 20 0 [rid] []).2 = Except.ok []
    rw [hstuck]

/-- Witness for C8: one place id whose only job polls `Pending` forever. -/
theorem c8_unresolved_job_silently_abandoned_witness :
    submitAll (fun _ _ => Except.ok 1) ["p"] [] = Except.ok [1] ∧
    get_all_reviews (fun _ _ => Except.ok 1) (fun _ _ => ("Pending", PyVal.none)) ["p"]
      = Except.ok [] ∧
    1 ∈ (pollLoop (fun _ _ => ("Pending", PyVal.none)) 10 0 [1] []).1 ∧
    get_all_reviews_last_24 (fun _ => Except.ok 1) (fun _ _ => ("Pending", PyVal.none))
      = Except.ok [] := by
  have h := c8_unresolved_job_silently_abandoned (fun _ _ => Except.ok 1)
    (fun _ _ => ("Pending", PyVal.none)) ["p"] [1] 1 rfl
    (fun r => by simp) (by simp)
  refine ⟨rfl, ?_, h.2.1, h.2.2 (fun _ => Except.ok 1) rfl⟩
  rw [h.1]
  rfl

end Scraper
